import Mathlib

/-!
Shallow embedding of the vacation-rental repository's bulk-import and
query/filter core, together with proofs settling the frozen claims.

Embedded source files:
- properties/management/commands/import_properties.py  (Command.handle)
- locations/models.py        (Location model, unique constraint, ordering)
- properties/models.py       (Property model, defaults, ordering)
- images/models.py           (PropertyImage.save override, primary flag)
- properties/views.py        (property_list view: filter + Paginator.get_page)
- properties/api_views.py    (LocationViewSet.autocomplete)

Python-level behaviour that matters is modelled explicitly:
- `str.strip` / `str.lower` (ASCII fragment) as pyStrip / pyLower;
- `int(s)` returning an Option (ValueError -> none, caught by the importer);
- `Decimal(s)` returning an Option (none models decimal.InvalidOperation,
  which is an ArithmeticError and is NOT caught by the importer's
  `except (ValueError, TypeError)` clauses — it propagates to the per-row
  handler);
- Django `get_or_create` / `update_or_create` lookups as list filters,
  with the MultipleObjectsReturned case raising a row-level exception;
- Django `Paginator.get_page` clamping semantics.
-/

namespace VacationRental

/-! ## Python string primitives -/

/-- ASCII fragment of Python `str.lower`. -/
def lowerChar (c : Char) : Char :=
  if 'A' ≤ c ∧ c ≤ 'Z' then Char.ofNat (c.toNat + 32) else c

/-- ASCII fragment of Python `str.lower` on strings. -/
def pyLower (s : String) : String := ⟨s.data.map lowerChar⟩

/-- Python whitespace characters removed by `str.strip`. -/
def isPySpace (c : Char) : Bool :=
  c = ' ' || c = '\t' || c = '\n' || c = '\x0d' || c = '\x0b' || c = '\x0c'

/-- Python `str.strip`: drop leading and trailing whitespace. -/
def pyStrip (s : String) : String :=
  ⟨((s.data.dropWhile isPySpace).reverse.dropWhile isPySpace).reverse⟩

/-- Decide whether a character is an ASCII decimal digit. -/
def isDig (c : Char) : Bool := '0' ≤ c && c ≤ '9'

/-- Value of a digit string, most significant digit first. -/
def digitsToNat (ds : List Char) : Nat :=
  ds.foldl (fun a c => 10 * a + (c.toNat - 48)) 0

/-- Split an optional leading sign off a character list, returning the sign
as `1` or `-1` and the remainder. -/
def splitSign : List Char → Int × List Char
  | '+' :: r => (1, r)
  | '-' :: r => (-1, r)
  | r => (1, r)

/-- Python `int(s)` on a string: strips whitespace, allows a sign, then
requires a non-empty run of digits.  `none` models ValueError. -/
def parseIntPy (s : String) : Option Int :=
  let t := (pyStrip s).data
  let (sgn, ds) := splitSign t
  if !ds.isEmpty && ds.all isDig then some (sgn * digitsToNat ds) else none

/-- Decimal value as stored by Python `Decimal`: an integer coefficient and
a decimal-point position, denoting `num * 10 ^ (-scale)`. -/
structure Dec where
  num : Int
  scale : Int
  deriving Repr, DecidableEq

/-- Parse the exponent tail of a decimal literal (after `e`/`E`). -/
def parseExpPart (r : List Char) : Option Int :=
  let (sgn, ds) := splitSign r
  if !ds.isEmpty && ds.all isDig then some (sgn * digitsToNat ds) else none

/-- Python `Decimal(s)` on a finite numeric literal: surrounding whitespace,
optional sign, digits with an optional decimal point (at least one digit),
optional exponent.  `none` models decimal.InvalidOperation. -/
def parseDecPy (s : String) : Option Dec :=
  let t := (pyStrip s).data
  let (sgn, r1) := splitSign t
  let ip := r1.takeWhile isDig
  let r2 := r1.drop ip.length
  let (fp, r3) :=
    match r2 with
    | '.' :: r => (r.takeWhile isDig, r.drop (r.takeWhile isDig).length)
    | _ => (([] : List Char), r2)
  if ip.isEmpty && fp.isEmpty then none
  else
    let expPart : Option Int :=
      match r3 with
      | [] => some 0
      | 'e' :: r => parseExpPart r
      | 'E' :: r => parseExpPart r
      | _ => none
    match expPart with
    | none => none
    | some e => some ⟨sgn * digitsToNat (ip ++ fp), (fp.length : Int) - e⟩

/-- The value `Decimal('1.0')`, the importer's bathrooms default. -/
def decOne : Dec := ⟨10, 1⟩

/-- The value `Decimal('100.00')`, the importer's price default. -/
def decHundred : Dec := ⟨10000, 2⟩

/-! ## Data model (locations/models.py, properties/models.py) -/

/-- Row of the `locations_location` table. -/
structure Location where
  id : Nat
  name : String
  city : String
  state : String
  country : String
  deriving Repr, DecidableEq

/-- Row of the `properties_property` table.  `locationId` is the nullable
foreign key to Location. -/
structure Property where
  id : Nat
  title : String
  locationId : Option Nat
  description : String
  property_type : String
  bedrooms : Int
  bathrooms : Dec
  max_guests : Int
  price_per_night : Dec
  address : String
  amenities : String
  is_available : Bool
  deriving Repr, DecidableEq

/-- The database state the importer and the query layer share.  The two
counters model the auto-increment primary keys. -/
structure Store where
  locations : List Location
  properties : List Property
  nextLocationId : Nat
  nextPropertyId : Nat
  deriving Repr, DecidableEq

/-- Fresh database. -/
def emptyStore : Store := ⟨[], [], 1, 1⟩

/-! ## CSV rows (csv.DictReader output) -/

/-- One CSV data row: each recognized column is present with a string value
or absent.  `row.get(k, d)` is modelled by `rowGet`. -/
structure Row where
  title : Option String
  description : Option String
  location : Option String
  city : Option String
  state : Option String
  country : Option String
  property_type : Option String
  bedrooms : Option String
  bathrooms : Option String
  max_guests : Option String
  price_per_night : Option String
  address : Option String
  amenities : Option String
  is_available : Option String
  deriving Repr, DecidableEq

/-- Row with every column absent. -/
def emptyRow : Row :=
  ⟨none, none, none, none, none, none, none, none, none, none, none, none, none, none⟩

/-- Python `row.get(key, default)` for string defaults. -/
def rowGet (o : Option String) (d : String) : String := o.getD d

/-- Behaviour of `int(row.get(key, d))` wrapped in the importer's
`except (ValueError, TypeError)` clause: an absent column gives the integer
default, an unparsable string is caught and also gives the default. -/
def intField (o : Option String) (d : Int) : Int :=
  match o with
  | none => d
  | some v => (parseIntPy v).getD d

/-- Behaviour of `Decimal(row.get(key, dStr))`: an absent column parses the
default literal (always succeeds), a present column parses the cell, and
`none` means `Decimal` raised InvalidOperation — which the importer's
`except (ValueError, TypeError)` clause does NOT catch. -/
def decField (o : Option String) (d : Dec) : Option Dec :=
  match o with
  | none => some d
  | some v => parseDecPy v

/-! ## Bulk importer (import_properties.py, Command.handle) -/

/-- Exceptions that can be raised while processing one row and reach the
per-row `except Exception` handler. -/
inductive RowExc where
  | invalidOperation
  | multipleObjectsReturned
  deriving Repr, DecidableEq

/-- Outcome of one data row: which summary counter it increments. -/
inductive RowOutcome where
  | created
  | updated
  | errored
  deriving Repr, DecidableEq

/-- Django `Location.objects.get_or_create(name=name, defaults=...)`:
the lookup is keyed on `name` alone; city/state/country are only used as
defaults when a new Location is created.  More than one existing match
raises MultipleObjectsReturned. -/
def locationGetOrCreate (s : Store) (name city state country : String) :
    Except (RowExc × Store) (Store × Nat) :=
  match s.locations.filter (fun l => l.name == name) with
  | [] =>
      let loc : Location := ⟨s.nextLocationId, name, city, state, country⟩
      .ok ({ s with locations := s.locations ++ [loc],
                    nextLocationId := s.nextLocationId + 1 }, loc.id)
  | [l] => .ok (s, l.id)
  | _ => .error (.multipleObjectsReturned, s)

/-- The part of the per-row body after the location step: title check,
numeric parsing, and the create / update_or_create decision.  The caller
passes `locId = none` exactly when `skip_location` is set (after a failed
location check the row was already skipped), so the `none` branch is the
code's `if skip_location or not location` branch.  An `Except.error` models
an exception escaping to the per-row handler, carrying the store as already
mutated at raise time. -/
def rowBodyAfterLocation (s : Store) (locId : Option Nat) (row : Row) :
    Except (RowExc × Store) (Store × RowOutcome) :=
  let title := pyStrip (rowGet row.title "")
  if title = "" then
    .ok (s, .errored)                 -- "Missing title, skipping..."
  else
    let bedrooms := intField row.bedrooms 1
    match decField row.bathrooms decOne with
    | none => .error (.invalidOperation, s)
    | some bathrooms =>
      let max_guests := intField row.max_guests 2
      match decField row.price_per_night decHundred with
      | none => .error (.invalidOperation, s)
      | some price_per_night =>
        let description := pyStrip (rowGet row.description "")
        let property_type := pyStrip (rowGet row.property_type "")
        let address := pyStrip (rowGet row.address "")
        let amenities := pyStrip (rowGet row.amenities "")
        let is_available := pyLower (rowGet row.is_available "true") == "true"
        match locId with
        | none =>
            -- Property.objects.create(title=title, **property_data)
            let prop : Property :=
              ⟨s.nextPropertyId, title, none, description, property_type,
               bedrooms, bathrooms, max_guests, price_per_night,
               address, amenities, is_available⟩
            .ok ({ s with properties := s.properties ++ [prop],
                          nextPropertyId := s.nextPropertyId + 1 }, .created)
        | some lid =>
            -- Property.objects.update_or_create(title=title, location=location,
            --                                   defaults=property_data)
            match s.properties.filter
                (fun p => p.title == title && p.locationId == some lid) with
            | [] =>
                let prop : Property :=
                  ⟨s.nextPropertyId, title, some lid, description, property_type,
                   bedrooms, bathrooms, max_guests, price_per_night,
                   address, amenities, is_available⟩
                .ok ({ s with properties := s.properties ++ [prop],
                              nextPropertyId := s.nextPropertyId + 1 }, .created)
            | [p] =>
                let upd : Property → Property := fun q =>
                  if q.id == p.id then
                    { q with locationId := some lid, description := description,
                             property_type := property_type, bedrooms := bedrooms,
                             bathrooms := bathrooms, max_guests := max_guests,
                             price_per_night := price_per_night, address := address,
                             amenities := amenities, is_available := is_available }
                  else q
                .ok ({ s with properties := s.properties.map upd }, .updated)
            | _ => .error (.multipleObjectsReturned, s)

/-- Body of the per-row `try` block.  With `skip_location` unset it reads
and strips the location columns, records an error row on missing data, and
otherwise resolves the Location by get-or-create before continuing. -/
def rowBody (skipLocation : Bool) (s : Store) (row : Row) :
    Except (RowExc × Store) (Store × RowOutcome) :=
  if skipLocation then
    rowBodyAfterLocation s none row
  else
    let location_name := pyStrip (rowGet row.location "")
    let city := pyStrip (rowGet row.city "")
    let state := pyStrip (rowGet row.state "")
    let country := pyStrip (rowGet row.country "USA")
    if location_name = "" ∨ city = "" ∨ state = "" then
      .ok (s, .errored)               -- "Missing location data, skipping..."
    else
      match locationGetOrCreate s location_name city state country with
      | .error e => .error e
      | .ok (s1, lid) => rowBodyAfterLocation s1 (some lid) row

/-- One loop iteration: the per-row `except Exception` handler turns any
raised exception into an error outcome, keeping every store mutation made
before the raise. -/
def processRow (skipLocation : Bool) (s : Store) (row : Row) : Store × RowOutcome :=
  match rowBody skipLocation s row with
  | .ok r => r
  | .error (_, s1) => (s1, .errored)

/-- Final import summary counters. -/
structure Summary where
  created : Nat
  updated : Nat
  errors : Nat
  deriving Repr, DecidableEq

/-- The row loop: processes every row in order, threading the store and
accumulating the three counters. -/
def importRows (skipLocation : Bool) : Store → List Row → Store × Summary
  | s, [] => (s, ⟨0, 0, 0⟩)
  | s, row :: rest =>
      let pr := processRow skipLocation s row
      let r := importRows skipLocation pr.1 rest
      match pr.2 with
      | .created => (r.1, ⟨r.2.created + 1, r.2.updated, r.2.errors⟩)
      | .updated => (r.1, ⟨r.2.created, r.2.updated + 1, r.2.errors⟩)
      | .errored => (r.1, ⟨r.2.created, r.2.updated, r.2.errors + 1⟩)

/-- Whole-run failures: the `open()` call fails, or reading/decoding the
file fails before any row is processed. -/
inductive FileErr where
  | fileNotFound
  | readError
  deriving Repr, DecidableEq

/-- Result of a successful import run. -/
structure ImportResult where
  store : Store
  created : Nat
  updated : Nat
  errors : Nat
  deriving Repr, DecidableEq

/-- Command.handle: `none` models a CSV file that cannot be opened
(FileNotFoundError aborts the run before any row is processed); with
readable input every row is processed and a summary is reported. -/
def handle (csvFile : Option (List Row)) (skipLocation : Bool) (s : Store) :
    Except FileErr ImportResult :=
  match csvFile with
  | none => .error .fileNotFound
  | some rows =>
      let r := importRows skipLocation s rows
      .ok ⟨r.1, r.2.created, r.2.updated, r.2.errors⟩

/-- Store reached by a run, taken from the success branch. -/
def storeOf (r : Except FileErr ImportResult) : Store :=
  match r with
  | .ok res => res.store
  | .error _ => emptyStore

/-- Summary counters of a run, when it succeeded. -/
def summaryOf (r : Except FileErr ImportResult) : Option (Nat × Nat × Nat) :=
  match r with
  | .ok res => some (res.created, res.updated, res.errors)
  | .error _ => none

/-- Store carried inside either branch of a row body result. -/
def bodyStore (r : Except (RowExc × Store) (Store × RowOutcome)) : Store :=
  match r with
  | .ok (s, _) => s
  | .error (_, s) => s

/-! ## Image store (images/models.py) -/

/-- Row of the `images_propertyimage` table. -/
structure PropertyImage where
  pk : Nat
  propertyId : Nat
  caption : String
  is_primary : Bool
  deriving Repr, DecidableEq

/-- The queryset update in PropertyImage.save:
`filter(property=self.property, is_primary=True).exclude(pk=self.pk)
 .update(is_primary=False)` applied to one stored row. -/
def clearFn (img j : PropertyImage) : PropertyImage :=
  if j.propertyId == img.propertyId && j.is_primary && j.pk != img.pk then
    { j with is_primary := false }
  else j

/-- Replace the row with the saved image's primary key. -/
def replaceFn (img j : PropertyImage) : PropertyImage :=
  if j.pk == img.pk then img else j

/-- Django `Model.save`: update the row with this primary key if it exists,
insert the row otherwise. -/
def superSave (imgs : List PropertyImage) (img : PropertyImage) : List PropertyImage :=
  if imgs.any (fun j => j.pk == img.pk) then imgs.map (replaceFn img)
  else imgs ++ [img]

/-- PropertyImage.save override: when the saved image is primary, first
clear the primary flag on every other image of the same Property, then run
the ordinary save. -/
def saveImage (imgs : List PropertyImage) (img : PropertyImage) : List PropertyImage :=
  let imgs1 := if img.is_primary then imgs.map (clearFn img) else imgs
  superSave imgs1 img

/-- Test for an image being a primary image of the given Property. -/
def isPrimaryFor (propId : Nat) (i : PropertyImage) : Bool :=
  i.propertyId == propId && i.is_primary

/-- Number of images of a given Property flagged primary. -/
def primaryCount (imgs : List PropertyImage) (propId : Nat) : Nat :=
  imgs.countP (isPrimaryFor propId)

/-- The §3 invariant: at most one primary image per Property. -/
def atMostOnePrimary (imgs : List PropertyImage) : Prop :=
  ∀ propId, primaryCount imgs propId ≤ 1

/-- Primary keys identify rows, as in the database. -/
def pkNodup (imgs : List PropertyImage) : Prop :=
  (imgs.map (fun i => i.pk)).Nodup

/-! ## Pagination (django Paginator, as used by property_list) -/

/-- The page query parameter: either absent / not an integer
(PageNotAnInteger) or an integer. -/
inductive PageInput where
  | notAnInt
  | ofInt (n : Int)
  deriving Repr, DecidableEq

/-- Paginator.num_pages with `orphans = 0` and allow_empty_first_page:
`ceil(max(1, count) / per_page)`. -/
def numPages (count perPage : Nat) : Nat :=
  max 1 ((count + perPage - 1) / perPage)

/-- Paginator.get_page's number resolution: a non-integer gives page 1,
a number below 1 or above num_pages gives the last page. -/
def getPageNumber (count perPage : Nat) (pi : PageInput) : Nat :=
  match pi with
  | .notAnInt => 1
  | .ofInt n =>
      if n < 1 then numPages count perPage
      else if (numPages count perPage : Int) < n then numPages count perPage
      else n.toNat

/-- A page object: the slice, its page number, the page count and the total
match count. -/
structure Page (α : Type) where
  object_list : List α
  number : Nat
  num_pages : Nat
  count : Nat
  deriving Repr, DecidableEq

/-- Page.has_next. -/
def Page.hasNext (p : Page α) : Bool := p.number < p.num_pages

/-- Page.has_previous. -/
def Page.hasPrevious (p : Page α) : Bool := 1 < p.number

/-- Paginator(items, perPage).get_page(pi). -/
def getPage (items : List α) (perPage : Nat) (pi : PageInput) : Page α :=
  let n := getPageNumber items.length perPage pi
  ⟨(items.drop ((n - 1) * perPage)).take perPage, n,
   numPages items.length perPage, items.length⟩

/-! ## Query layer (properties/views.py, properties/api_views.py) -/

/-- Resolve a property's Location through its foreign key. -/
def locationOfProperty (s : Store) (p : Property) : Option Location :=
  p.locationId.bind (fun lid => (s.locations.filter (fun l => l.id == lid)).head?)

/-- Substring test on character lists. -/
def containsList (hay needle : List Char) : Bool :=
  (List.range (hay.length + 1)).any (fun i => needle.isPrefixOf (hay.drop i))

/-- Django `icontains`: case-insensitive substring match. -/
def icontains (hay needle : String) : Bool :=
  containsList (pyLower hay).data (pyLower needle).data

/-- The view's location filter:
`Q(location__name__icontains=q) | Q(location__city__icontains=q) |
 Q(location__state__icontains=q)`; a Property with no Location never
matches (the join fails). -/
def propertyMatchesLocationQuery (s : Store) (q : String) (p : Property) : Bool :=
  match locationOfProperty s p with
  | some l => icontains l.name q || icontains l.city q || icontains l.state q
  | none => false

/-- Queryset built by property_list: all available Properties in the default
newest-first order, narrowed by the stripped `location` query when it is
non-empty. -/
def propertyListQueryset (s : Store) (locationParam : String) : List Property :=
  let base := (s.properties.filter (fun p => p.is_available)).reverse
  let location_query := pyStrip locationParam
  if location_query = "" then base
  else base.filter (propertyMatchesLocationQuery s location_query)

/-- The property_list view's page: Paginator(queryset, 9).get_page(page). -/
def property_list (s : Store) (locationParam : String) (page : PageInput) :
    Page Property :=
  getPage (propertyListQueryset s locationParam) 9 page

/-- Match predicate of the autocomplete endpoint:
`Q(name__icontains=query) | Q(city__icontains=query) |
 Q(state__icontains=query)`. -/
def locationMatchesQuery (query : String) (l : Location) : Bool :=
  icontains l.name query || icontains l.city query || icontains l.state query

/-- Default queryset ordering of Location: `ordering = ['name']`. -/
def nameOrder (a b : Location) : Prop := a.name ≤ b.name

instance : DecidableRel nameOrder :=
  fun a b => inferInstanceAs (Decidable (a.name ≤ b.name))

instance : IsTotal Location nameOrder := ⟨fun a b => le_total a.name b.name⟩

instance : IsTrans Location nameOrder :=
  ⟨fun _ _ _ hab hbc => le_trans hab hbc⟩

/-- Order a location list by name ascending (the model's Meta ordering). -/
def sortByName (ls : List Location) : List Location :=
  List.insertionSort nameOrder ls

/-- LocationViewSet.autocomplete: strip the `q` parameter, return an empty
list for an empty query, otherwise the first 5 matching Locations in name
order. -/
def autocomplete (s : Store) (q : String) : List Location :=
  let query := pyStrip q
  if query = "" then []
  else (sortByName (s.locations.filter (locationMatchesQuery query))).take 5

/-! ## Concrete test data used by witnesses and counterexamples -/

/-- Import row naming location "Downtown" in Miami. -/
def rowDowntownMiami : Row :=
  { emptyRow with location := some "Downtown", city := some "Miami",
                  state := some "FL", title := some "Condo A",
                  price_per_night := some "120.00" }

/-- Import row naming location "Downtown" in Austin — same location name,
different city and state. -/
def rowDowntownAustin : Row :=
  { emptyRow with location := some "Downtown", city := some "Austin",
                  state := some "TX", title := some "Condo B",
                  price_per_night := some "95.00" }

/-- Import row whose price_per_night cell is not a number. -/
def rowBadPrice : Row :=
  { emptyRow with location := some "Miami Beach", city := some "Miami",
                  state := some "FL", title := some "Beach House",
                  price_per_night := some "abc" }

/-- Import row whose bedrooms cell is not a number but whose decimal cells
are fine. -/
def rowBadBedrooms : Row :=
  { emptyRow with location := some "Miami Beach", city := some "Miami",
                  state := some "FL", title := some "Beach House",
                  bedrooms := some "lots", price_per_night := some "150.00" }

/-- A fully valid import row with location data. -/
def rowValid : Row :=
  { emptyRow with location := some "Miami Beach", city := some "Miami",
                  state := some "FL", title := some "Ocean Villa",
                  bedrooms := some "3", bathrooms := some "2.5",
                  max_guests := some "6", price_per_night := some "250.00" }

/-- Import row with a title but an unparsable bathrooms cell. -/
def rowBadBathrooms : Row :=
  { emptyRow with title := some "Loft", bathrooms := some "two" }

/-- The valid row with its price cell corrupted. -/
def rowValidBadPrice : Row :=
  { rowValid with price_per_night := some "abc" }

/-- Import row carrying only a title. -/
def rowTitleOnly : Row :=
  { emptyRow with title := some "Loft" }

/-- An available property used to populate the pagination scenario. -/
def mkAvailableProp (i : Nat) : Property :=
  ⟨i + 1, "Prop " ++ toString i, none, "", "", 1, decOne, 2, decHundred,
   "", "", true⟩

/-- Store holding exactly 25 available properties. -/
def store25 : Store :=
  ⟨[], (List.range 25).map mkAvailableProp, 1, 26⟩

/-- Store holding 8 locations that all match the query "mia". -/
def store8Locations : Store :=
  ⟨(List.range 8).map
     (fun i => ⟨i + 1, "Miami " ++ toString i, "Miami", "FL", "USA"⟩),
   [], 9, 1⟩

/-- Concrete images: a primary image of property 1. -/
def imgA : PropertyImage := ⟨1, 1, "front", true⟩

/-- Concrete images: a second primary image of property 1. -/
def imgB : PropertyImage := ⟨2, 1, "back", true⟩

/-- Concrete images: a primary image of property 2. -/
def imgC : PropertyImage := ⟨3, 2, "pool", true⟩

/-- Concrete images: a non-primary image of property 1. -/
def imgD : PropertyImage := ⟨4, 1, "side", false⟩

/-! # Lemmas and claim theorems -/

/-! ## Image store lemmas -/

theorem clearFn_pk (img j : PropertyImage) : (clearFn img j).pk = j.pk := by
  unfold clearFn
  split <;> rfl

theorem clearFn_propId (img j : PropertyImage) :
    (clearFn img j).propertyId = j.propertyId := by
  unfold clearFn
  split <;> rfl

theorem clearFn_eq_self (img a : PropertyImage)
    (h : (a.propertyId == img.propertyId && a.is_primary && a.pk != img.pk) = false) :
    clearFn img a = a := by
  unfold clearFn
  rw [if_neg]
  simp [h]

theorem replaceFn_eq_self (img a : PropertyImage) (h : (a.pk == img.pk) = false) :
    replaceFn img a = a := by
  unfold replaceFn
  rw [if_neg]
  simp [h]

theorem replaceFn_eq_img (img a : PropertyImage) (h : (a.pk == img.pk) = true) :
    replaceFn img a = img := by
  unfold replaceFn
  rw [if_pos h]

theorem replaceFn_pk (img j : PropertyImage) : (replaceFn img j).pk = j.pk := by
  unfold replaceFn
  split
  · rename_i h
    exact (beq_iff_eq.mp h).symm
  · rfl

theorem countP_pk_le_one (x : Nat) :
    ∀ imgs : List PropertyImage, pkNodup imgs →
      imgs.countP (fun j => j.pk == x) ≤ 1 := by
  intro imgs
  induction imgs with
  | nil => intro _; simp
  | cons i t ih =>
    intro h
    have h' : i.pk ∉ t.map (fun j => j.pk) ∧ pkNodup t := by
      simpa [pkNodup, List.nodup_cons] using h
    rw [List.countP_cons]
    by_cases hx : (i.pk == x) = true
    · have hx' : i.pk = x := beq_iff_eq.mp hx
      have hzero : t.countP (fun j => j.pk == x) = 0 := by
        rw [List.countP_eq_zero]
        intro a ha hax
        exact h'.1 (List.mem_map.mpr
          ⟨a, ha, by rw [beq_iff_eq.mp hax, hx']⟩)
      rw [hzero, if_pos hx]
    · rw [if_neg hx]
      simpa using ih h'.2

theorem clear_pkNodup (img : PropertyImage) (imgs : List PropertyImage)
    (h : pkNodup imgs) : pkNodup (imgs.map (clearFn img)) := by
  unfold pkNodup
  rw [List.map_map]
  have : ((fun i : PropertyImage => i.pk) ∘ clearFn img) = fun i => i.pk := by
    funext a
    exact clearFn_pk img a
  rw [this]
  exact h

theorem superSave_pkNodup (img : PropertyImage) (A : List PropertyImage)
    (h : pkNodup A) : pkNodup (superSave A img) := by
  unfold superSave
  by_cases hany : A.any (fun j => j.pk == img.pk) = true
  · rw [if_pos hany]
    unfold pkNodup
    rw [List.map_map]
    have : ((fun i : PropertyImage => i.pk) ∘ replaceFn img) = fun i => i.pk := by
      funext a
      exact replaceFn_pk img a
    rw [this]
    exact h
  · rw [if_neg hany]
    unfold pkNodup
    rw [List.map_append, List.nodup_append]
    refine ⟨h, by simp, ?_⟩
    intro x hx hximg
    simp only [List.map_cons, List.map_nil, List.mem_singleton] at hximg
    rcases List.mem_map.mp hx with ⟨j, hj, rfl⟩
    exact hany (List.any_eq_true.mpr ⟨j, hj, by simp [hximg]⟩)

theorem saveImage_pkNodup (imgs : List PropertyImage) (img : PropertyImage)
    (h : pkNodup imgs) : pkNodup (saveImage imgs img) := by
  unfold saveImage
  by_cases hp : img.is_primary = true
  · rw [if_pos hp]
    exact superSave_pkNodup img _ (clear_pkNodup img imgs h)
  · rw [if_neg hp]
    exact superSave_pkNodup img _ h

theorem clear_primary_pk (img : PropertyImage) (imgs : List PropertyImage) :
    ∀ j ∈ imgs.map (clearFn img),
      isPrimaryFor img.propertyId j = true → j.pk = img.pk := by
  intro j hj hcond
  rcases List.mem_map.mp hj with ⟨a, _, rfl⟩
  unfold isPrimaryFor at hcond
  by_cases hc : (a.propertyId == img.propertyId && a.is_primary && a.pk != img.pk) = true
  · exfalso
    unfold clearFn at hcond
    rw [if_pos hc] at hcond
    simp at hcond
  · rw [clearFn_eq_self img a (by simpa using hc)] at hcond ⊢
    simp only [Bool.and_eq_true, beq_iff_eq] at hcond
    simp only [Bool.and_eq_true, Bool.and_assoc, bne_iff_ne, Bool.not_eq_true] at hc
    by_contra hne
    exact hc ⟨by simp [hcond.1], hcond.2, hne⟩

theorem countP_superSave_le (A : List PropertyImage) (img : PropertyImage)
    (p : PropertyImage → Bool) (hpimg : p img = false) :
    (superSave A img).countP p ≤ A.countP p := by
  unfold superSave
  by_cases hany : A.any (fun j => j.pk == img.pk) = true
  · rw [if_pos hany, List.countP_map]
    refine List.countP_mono_left ?_
    intro a _ hpa
    by_cases hpk : (a.pk == img.pk) = true
    · rw [Function.comp_apply, replaceFn_eq_img img a hpk, hpimg] at hpa
      exact absurd hpa (by simp)
    · rwa [Function.comp_apply,
        replaceFn_eq_self img a (by simpa using hpk)] at hpa
  · rw [if_neg hany, List.countP_append]
    simp [hpimg]

theorem countP_superSave_primary (A : List PropertyImage) (img : PropertyImage)
    (hnd : pkNodup A)
    (hclr : ∀ j ∈ A, isPrimaryFor img.propertyId j = true → j.pk = img.pk) :
    (superSave A img).countP (isPrimaryFor img.propertyId) ≤ 1 := by
  unfold superSave
  by_cases hany : A.any (fun j => j.pk == img.pk) = true
  · rw [if_pos hany, List.countP_map]
    refine le_trans (List.countP_mono_left ?_) (countP_pk_le_one img.pk A hnd)
    intro a ha hpa
    by_cases hpk : (a.pk == img.pk) = true
    · exact hpk
    · rw [Function.comp_apply,
        replaceFn_eq_self img a (by simpa using hpk)] at hpa
      exact absurd (beq_iff_eq.mpr (hclr a ha hpa)) hpk
  · rw [if_neg hany, List.countP_append]
    have h0 : A.countP (isPrimaryFor img.propertyId) = 0 := by
      rw [List.countP_eq_zero]
      intro a ha hpa
      exact hany (List.any_eq_true.mpr ⟨a, ha, by simp [hclr a ha hpa]⟩)
    have h1 : List.countP (isPrimaryFor img.propertyId) [img] ≤ 1 :=
      le_trans (List.countP_le_length _) (by simp)
    omega

theorem countP_clear_le (imgs : List PropertyImage) (img : PropertyImage)
    (q : Nat) :
    (imgs.map (clearFn img)).countP (isPrimaryFor q) ≤
      imgs.countP (isPrimaryFor q) := by
  rw [List.countP_map]
  refine List.countP_mono_left ?_
  intro a _ hpa
  by_cases hc : (a.propertyId == img.propertyId && a.is_primary && a.pk != img.pk) = true
  · exfalso
    rw [Function.comp_apply] at hpa
    unfold clearFn at hpa
    rw [if_pos hc] at hpa
    unfold isPrimaryFor at hpa
    simp at hpa
  · rwa [Function.comp_apply,
      clearFn_eq_self img a (by simpa using hc)] at hpa

theorem saveImage_atMostOne (imgs : List PropertyImage) (img : PropertyImage)
    (hnd : pkNodup imgs) (hinv : atMostOnePrimary imgs) :
    atMostOnePrimary (saveImage imgs img) := by
  intro q
  unfold primaryCount saveImage
  by_cases hp : img.is_primary = true
  · rw [if_pos hp]
    by_cases hq : q = img.propertyId
    · subst hq
      exact countP_superSave_primary _ img (clear_pkNodup img imgs hnd)
        (clear_primary_pk img imgs)
    · have himgq : isPrimaryFor q img = false := by
        unfold isPrimaryFor
        simp only [Bool.and_eq_false_iff]
        left
        simpa using fun h => hq h.symm
      exact le_trans (countP_superSave_le _ img _ himgq)
        (le_trans (countP_clear_le imgs img q) (hinv q))
  · rw [if_neg hp]
    have himgq : isPrimaryFor q img = false := by
      unfold isPrimaryFor
      simp only [Bool.and_eq_false_iff]
      right
      simpa using hp
    exact le_trans (countP_superSave_le imgs img _ himgq) (hinv q)

theorem foldl_saveImage_invariant (ops : List PropertyImage) :
    ∀ imgs : List PropertyImage, pkNodup imgs → atMostOnePrimary imgs →
      pkNodup (List.foldl saveImage imgs ops) ∧
        atMostOnePrimary (List.foldl saveImage imgs ops) := by
  induction ops with
  | nil => intro imgs h1 h2; exact ⟨h1, h2⟩
  | cons op rest ih =>
    intro imgs h1 h2
    exact ih (saveImage imgs op) (saveImage_pkNodup imgs op h1)
      (saveImage_atMostOne imgs op h1 h2)

/-- C3: after any sequence of PropertyImage save operations starting from a
database state with distinct primary keys and at most one primary image per
Property, every Property still has at most one image with is_primary set:
saving a primary image first clears the flag on every other image of the
same Property, so the invariant holds in the state that commits. -/
theorem C3_primary_invariant (ops : List PropertyImage)
    (imgs : List PropertyImage) (hnd : pkNodup imgs)
    (hinv : atMostOnePrimary imgs) :
    atMostOnePrimary (List.foldl saveImage imgs ops) :=
  (foldl_saveImage_invariant ops imgs hnd hinv).2

/-- Witness for C3: saving three primary images (two of them for the same
Property) starting from an empty store leaves property 1 with at most one
primary image. -/
theorem C3_primary_invariant_witness :
    primaryCount (List.foldl saveImage [] [imgA, imgB, imgC]) 1 ≤ 1 :=
  C3_primary_invariant [imgA, imgB, imgC] [] (by simp [pkNodup])
    (fun propId => by simp [primaryCount]) 1

/-- Filter along a map that leaves every element kept by the filter intact
and never changes whether an element is kept. -/
theorem filter_map_untouched (f : PropertyImage → PropertyImage)
    (p : PropertyImage → Bool) (h1 : ∀ a, p a = true → f a = a)
    (h2 : ∀ a, p (f a) = p a) (l : List PropertyImage) :
    (l.map f).filter p = l.filter p := by
  induction l with
  | nil => rfl
  | cons a t ih =>
    simp only [List.map_cons, List.filter_cons, h2 a]
    by_cases hpa : p a = true
    · rw [if_pos hpa, if_pos hpa, h1 a hpa, ih]
    · rw [if_neg hpa, if_neg hpa, ih]

/-- C10: saving a PropertyImage whose is_primary flag is false never
modifies any other image record, and even a primary save touches only
images of the same Property — every record with a different primary key and
a different owning Property is exactly preserved. -/
theorem C10_save_frame (imgs : List PropertyImage) (img : PropertyImage) :
    (img.is_primary = false →
       (saveImage imgs img).filter (fun j => j.pk != img.pk) =
         imgs.filter (fun j => j.pk != img.pk)) ∧
      (saveImage imgs img).filter
          (fun j => j.pk != img.pk && j.propertyId != img.propertyId) =
        imgs.filter (fun j => j.pk != img.pk && j.propertyId != img.propertyId) := by
  constructor
  · intro hp
    unfold saveImage
    rw [if_neg (by simp [hp])]
    unfold superSave
    by_cases hany : imgs.any (fun j => j.pk == img.pk) = true
    · rw [if_pos hany]
      refine filter_map_untouched _ _ ?_ ?_ imgs
      · intro a ha
        exact replaceFn_eq_self img a (by simpa using ha)
      · intro a
        by_cases hpk : (a.pk == img.pk) = true
        · rw [replaceFn_eq_img img a hpk]
          simp [beq_iff_eq.mp hpk]
        · rw [replaceFn_eq_self img a (by simpa using hpk)]
    · rw [if_neg hany, List.filter_append]
      simp
  · unfold saveImage
    have hstep1 :
        (if img.is_primary = true then imgs.map (clearFn img) else imgs).filter
            (fun j => j.pk != img.pk && j.propertyId != img.propertyId) =
          imgs.filter (fun j => j.pk != img.pk && j.propertyId != img.propertyId) := by
      by_cases hp : img.is_primary = true
      · rw [if_pos hp]
        refine filter_map_untouched _ _ ?_ ?_ imgs
        · intro a ha
          simp only [Bool.and_eq_true, bne_iff_ne] at ha
          refine clearFn_eq_self img a ?_
          simp only [Bool.and_eq_false_iff]
          left
          left
          simpa using ha.2
        · intro a
          rw [show (clearFn img a).pk = a.pk from clearFn_pk img a,
            show (clearFn img a).propertyId = a.propertyId from clearFn_propId img a]
      · rw [if_neg hp]
    rw [show (superSave (if img.is_primary = true then imgs.map (clearFn img) else imgs) img).filter
          (fun j => j.pk != img.pk && j.propertyId != img.propertyId) =
        ((if img.is_primary = true then imgs.map (clearFn img) else imgs)).filter
          (fun j => j.pk != img.pk && j.propertyId != img.propertyId) from ?_, hstep1]
    unfold superSave
    set A := if img.is_primary = true then imgs.map (clearFn img) else imgs
    by_cases hany : A.any (fun j => j.pk == img.pk) = true
    · rw [if_pos hany]
      refine filter_map_untouched _ _ ?_ ?_ A
      · intro a ha
        simp only [Bool.and_eq_true, bne_iff_ne] at ha
        exact replaceFn_eq_self img a (by simpa using ha.1)
      · intro a
        by_cases hpk : (a.pk == img.pk) = true
        · rw [replaceFn_eq_img img a hpk]
          simp [beq_iff_eq.mp hpk]
        · rw [replaceFn_eq_self img a (by simpa using hpk)]
    · rw [if_neg hany, List.filter_append]
      simp

/-! ## Importer lemmas -/

theorem importRows_cons (skipLocation : Bool) (s : Store) (row : Row)
    (rest : List Row) :
    importRows skipLocation s (row :: rest) =
      (let pr := processRow skipLocation s row
       let r := importRows skipLocation pr.1 rest
       match pr.2 with
       | .created => (r.1, ⟨r.2.created + 1, r.2.updated, r.2.errors⟩)
       | .updated => (r.1, ⟨r.2.created, r.2.updated + 1, r.2.errors⟩)
       | .errored => (r.1, ⟨r.2.created, r.2.updated, r.2.errors + 1⟩)) := rfl

theorem processRow_fst (skipLocation : Bool) (s : Store) (row : Row) :
    (processRow skipLocation s row).1 = bodyStore (rowBody skipLocation s row) := by
  unfold processRow bodyStore
  cases h : rowBody skipLocation s row with
  | ok r => rfl
  | error e => cases e; rfl

theorem afterLocation_locations (s : Store) (locId : Option Nat) (row : Row) :
    (bodyStore (rowBodyAfterLocation s locId row)).locations = s.locations ∧
      (bodyStore (rowBodyAfterLocation s locId row)).nextLocationId = s.nextLocationId := by
  unfold rowBodyAfterLocation
  by_cases ht : pyStrip (rowGet row.title "") = ""
  · rw [if_pos ht]
    simp [bodyStore]
  · rw [if_neg ht]
    cases hb : decField row.bathrooms decOne with
    | none => simp [bodyStore]
    | some b =>
      cases hp : decField row.price_per_night decHundred with
      | none => simp [bodyStore]
      | some pr =>
        cases locId with
        | none => simp [bodyStore]
        | some lid =>
          cases hm : s.properties.filter
              (fun p => p.title == pyStrip (rowGet row.title "") &&
                p.locationId == some lid) with
          | nil => simp [bodyStore, hm]
          | cons p rest =>
            cases rest with
            | nil => simp [bodyStore, hm]
            | cons p2 rest2 => simp [bodyStore, hm]

/-- Witness for C10: saving the non-primary image imgD next to the primary
images imgA and imgC leaves every other record exactly as it was. -/
theorem C10_save_frame_witness :
    (saveImage [imgA, imgC] imgD).filter (fun j => j.pk != imgD.pk) =
        [imgA, imgC].filter (fun j => j.pk != imgD.pk) ∧
      (saveImage [imgA, imgC] imgD).filter
          (fun j => j.pk != imgD.pk && j.propertyId != imgD.propertyId) =
        [imgA, imgC].filter
          (fun j => j.pk != imgD.pk && j.propertyId != imgD.propertyId) :=
  ⟨(C10_save_frame [imgA, imgC] imgD).1 rfl, (C10_save_frame [imgA, imgC] imgD).2⟩

/-- C9: every data row is counted in exactly one of the three summary
buckets — created plus updated plus errors equals the number of rows read,
for any run that reaches row processing. -/
theorem C9_counts_partition (skipLocation : Bool) (s : Store) (rows : List Row) :
    (importRows skipLocation s rows).2.created +
        (importRows skipLocation s rows).2.updated +
        (importRows skipLocation s rows).2.errors = rows.length := by
  induction rows generalizing s with
  | nil => simp [importRows]
  | cons row rest ih =>
    rw [importRows_cons]
    have h := ih (processRow skipLocation s row).1
    cases hpr : (processRow skipLocation s row).2 <;>
      simp only [hpr] <;> simp <;> omega

/-- C5: an exception raised while processing a single row is caught by the
per-row handler (keeping the store mutations already made), the error count
is incremented and the remaining rows are still processed from that store;
a run over readable input always produces a summary, and only a missing
input file aborts before any row is processed. -/
theorem C5_row_failure_recovery (skipLocation : Bool) :
    (∀ (s : Store) (row : Row) (exc : RowExc) (s1 : Store),
        rowBody skipLocation s row = .error (exc, s1) →
          processRow skipLocation s row = (s1, .errored)) ∧
      (∀ (s : Store) (row : Row) (rest : List Row) (exc : RowExc) (s1 : Store),
          rowBody skipLocation s row = .error (exc, s1) →
            importRows skipLocation s (row :: rest) =
              ((importRows skipLocation s1 rest).1,
               ⟨(importRows skipLocation s1 rest).2.created,
                (importRows skipLocation s1 rest).2.updated,
                (importRows skipLocation s1 rest).2.errors + 1⟩)) ∧
      (∀ (rows : List Row) (s : Store),
          ∃ res, handle (some rows) skipLocation s = .ok res) ∧
      (∀ s : Store, handle none skipLocation s = .error .fileNotFound) := by
  have hcatch : ∀ (s : Store) (row : Row) (exc : RowExc) (s1 : Store),
      rowBody skipLocation s row = .error (exc, s1) →
        processRow skipLocation s row = (s1, .errored) := by
    intro s row exc s1 h
    unfold processRow
    rw [h]
  refine ⟨hcatch, ?_, ?_, ?_⟩
  · intro s row rest exc s1 h
    rw [importRows_cons, hcatch s row exc s1 h]
  · intro rows s
    exact ⟨_, rfl⟩
  · intro s
    rfl

/-- Witness for C5: the row with bathrooms cell "two" raises an exception
(decimal.InvalidOperation), is recorded as an error with the store kept,
the following title-only row still runs, and a missing file aborts. -/
theorem C5_row_failure_recovery_witness :
    processRow true emptyStore rowBadBathrooms = (emptyStore, .errored) ∧
      importRows true emptyStore [rowBadBathrooms, rowTitleOnly] =
        ((importRows true emptyStore [rowTitleOnly]).1,
         ⟨(importRows true emptyStore [rowTitleOnly]).2.created,
          (importRows true emptyStore [rowTitleOnly]).2.updated,
          (importRows true emptyStore [rowTitleOnly]).2.errors + 1⟩) ∧
      handle none true emptyStore = .error .fileNotFound :=
  ⟨(C5_row_failure_recovery true).1 emptyStore rowBadBathrooms
     .invalidOperation emptyStore rfl,
   (C5_row_failure_recovery true).2.1 emptyStore rowBadBathrooms [rowTitleOnly]
     .invalidOperation emptyStore rfl,
   (C5_row_failure_recovery true).2.2.2 emptyStore⟩

/-- C2 (code bug): contrary to the claim and the importer's own comments,
an unparsable price_per_night cell does not fall back to 100.00 —
`Decimal('abc')` raises decimal.InvalidOperation, which the
`except (ValueError, TypeError)` clause does not catch, so the row is
counted as an error (the Location created earlier in the row persists).
The integer fields do fall back: an unparsable bedrooms cell still yields a
created row with bedrooms 1. -/
theorem C2_decimal_fallback_dead :
    (processRow false emptyStore rowBadPrice).2 = .errored ∧
      (processRow false emptyStore rowBadPrice).1.properties = [] ∧
      rowBody false emptyStore rowBadPrice =
        .error (.invalidOperation,
          { emptyStore with
              locations := [⟨1, "Miami Beach", "Miami", "FL", "USA"⟩],
              nextLocationId := 2 }) ∧
      (processRow false emptyStore rowBadBedrooms).2 = .created ∧
      (processRow false emptyStore rowBadBedrooms).1.properties.map
          (fun p => p.bedrooms) = [1] :=
  ⟨rfl, rfl, rfl, rfl, rfl⟩

/-- C1 counterexample: two rows naming location "Downtown" with different
cities (Miami vs Austin) do not resolve to two distinct Locations — the
name-only get_or_create lookup reuses the first Location, so the run ends
with a single Location and both Properties referencing it. -/
theorem C1_counterexample :
    (storeOf (handle (some [rowDowntownMiami, rowDowntownAustin]) false
        emptyStore)).locations = [⟨1, "Downtown", "Miami", "FL", "USA"⟩] ∧
      (storeOf (handle (some [rowDowntownMiami, rowDowntownAustin]) false
          emptyStore)).properties.map (fun p => p.locationId) =
        [some 1, some 1] :=
  ⟨rfl, rfl⟩

/-- C1 (amended): the importer resolves the Location by get-or-create keyed
on the location name alone: when exactly one Location with that name exists
it is reused unchanged (whatever its city/state/country), and when none
exists a new Location is created with the row's city, state and country. -/
theorem C1_get_or_create_by_name (s : Store) (row : Row)
    (hname : pyStrip (rowGet row.location "") ≠ "")
    (hcity : pyStrip (rowGet row.city "") ≠ "")
    (hstate : pyStrip (rowGet row.state "") ≠ "") :
    (∀ l : Location,
        s.locations.filter
            (fun l2 => l2.name == pyStrip (rowGet row.location "")) = [l] →
          (processRow false s row).1.locations = s.locations) ∧
      (s.locations.filter
          (fun l2 => l2.name == pyStrip (rowGet row.location "")) = [] →
        (processRow false s row).1.locations =
          s.locations ++
            [⟨s.nextLocationId, pyStrip (rowGet row.location ""),
              pyStrip (rowGet row.city ""), pyStrip (rowGet row.state ""),
              pyStrip (rowGet row.country "USA")⟩]) := by
  have hbody : rowBody false s row =
      match locationGetOrCreate s (pyStrip (rowGet row.location ""))
          (pyStrip (rowGet row.city "")) (pyStrip (rowGet row.state ""))
          (pyStrip (rowGet row.country "USA")) with
      | .error e => .error e
      | .ok (s1, lid) => rowBodyAfterLocation s1 (some lid) row := by
    unfold rowBody
    rw [if_neg (by simp), if_neg (by simp [hname, hcity, hstate])]
  constructor
  · intro l hfil
    rw [processRow_fst, hbody]
    unfold locationGetOrCreate
    rw [hfil]
    exact (afterLocation_locations s (some l.id) row).1
  · intro hfil
    rw [processRow_fst, hbody]
    unfold locationGetOrCreate
    rw [hfil]
    exact (afterLocation_locations _ _ row).1

/-- Witness for C1: importing the Downtown/Miami row into an empty store
creates the Location with the row's city, state and country. -/
theorem C1_get_or_create_by_name_witness :
    (processRow false emptyStore rowDowntownMiami).1.locations =
      emptyStore.locations ++ [⟨1, "Downtown", "Miami", "FL", "USA"⟩] :=
  (C1_get_or_create_by_name emptyStore rowDowntownMiami (by decide)
      (by decide) (by decide)).2 rfl

/-- C6 counterexample: with skip_location set, the row with non-blank title
"Loft" and bathrooms cell "two" is NOT created — the uncaught
decimal.InvalidOperation makes it an error row, so a row with a non-blank
title is not unconditionally created. -/
theorem C6_counterexample :
    (processRow true emptyStore rowBadBathrooms).2 = .errored ∧
      (processRow true emptyStore rowBadBathrooms).1.properties = [] :=
  ⟨rfl, rfl⟩

/-- C6 (amended): with skip_location set, every row with a non-blank title
whose bathrooms and price_per_night cells parse (or are absent) appends a
brand-new Property with no Location and counts as created — it is never
matched against or merged into an existing Property, whatever the store
already contains. -/
theorem C6_skip_location_always_creates (s : Store) (row : Row) (b pr : Dec)
    (htitle : pyStrip (rowGet row.title "") ≠ "")
    (hb : decField row.bathrooms decOne = some b)
    (hpr : decField row.price_per_night decHundred = some pr) :
    processRow true s row =
      ({ s with properties := s.properties ++
                  [⟨s.nextPropertyId, pyStrip (rowGet row.title ""), none,
                    pyStrip (rowGet row.description ""),
                    pyStrip (rowGet row.property_type ""),
                    intField row.bedrooms 1, b, intField row.max_guests 2, pr,
                    pyStrip (rowGet row.address ""),
                    pyStrip (rowGet row.amenities ""),
                    pyLower (rowGet row.is_available "true") == "true"⟩],
                nextPropertyId := s.nextPropertyId + 1 }, .created) := by
  unfold processRow rowBody
  rw [if_pos rfl]
  unfold rowBodyAfterLocation
  rw [if_neg htitle, hb, hpr]

/-- Witness for C6: a title-only row imported with skip_location into an
empty store creates Property 1 titled "Loft" with no Location. -/
theorem C6_skip_location_always_creates_witness :
    processRow true emptyStore rowTitleOnly =
      ({ emptyStore with
          properties := emptyStore.properties ++
            [⟨emptyStore.nextPropertyId, pyStrip (rowGet rowTitleOnly.title ""),
              none, pyStrip (rowGet rowTitleOnly.description ""),
              pyStrip (rowGet rowTitleOnly.property_type ""),
              intField rowTitleOnly.bedrooms 1, decOne,
              intField rowTitleOnly.max_guests 2, decHundred,
              pyStrip (rowGet rowTitleOnly.address ""),
              pyStrip (rowGet rowTitleOnly.amenities ""),
              pyLower (rowGet rowTitleOnly.is_available "true") == "true"⟩],
          nextPropertyId := emptyStore.nextPropertyId + 1 }, .created) :=
  C6_skip_location_always_creates emptyStore rowTitleOnly decOne decHundred
    (by decide) rfl rfl

/-- C4 counterexample: a row whose title and resolved Location match the
existing Property "Ocean Villa" but whose price cell is "abc" is counted as
an error, not updated — the uncaught decimal.InvalidOperation aborts the
row before the update, leaving the stored price at 250.00. -/
theorem C4_counterexample :
    (processRow false (storeOf (handle (some [rowValid]) false emptyStore))
        rowValidBadPrice).2 = .errored ∧
      (processRow false (storeOf (handle (some [rowValid]) false emptyStore))
          rowValidBadPrice).1.properties.map (fun p => p.price_per_night) =
        [⟨25000, 2⟩] :=
  ⟨rfl, rfl⟩

/-- C4 (amended): a row whose stripped title and resolved Location match
exactly one existing Property, and whose decimal cells parse (or are
absent), updates that Property in place — the identifier list of the store
is unchanged (same Property, no duplicate) and the row counts as updated;
and importing the same valid single-row file twice gives 1 created /
0 updated, then 0 created / 1 updated with the same identifier. -/
theorem C4_reimport_updates (s : Store) (row : Row) (l0 : Location)
    (p0 : Property) (b pr : Dec)
    (hname : pyStrip (rowGet row.location "") ≠ "")
    (hcity : pyStrip (rowGet row.city "") ≠ "")
    (hstate : pyStrip (rowGet row.state "") ≠ "")
    (htitle : pyStrip (rowGet row.title "") ≠ "")
    (hb : decField row.bathrooms decOne = some b)
    (hpr : decField row.price_per_night decHundred = some pr)
    (hloc : s.locations.filter
        (fun l2 => l2.name == pyStrip (rowGet row.location "")) = [l0])
    (hmatch : s.properties.filter
        (fun p => p.title == pyStrip (rowGet row.title "") &&
          p.locationId == some l0.id) = [p0]) :
    ((processRow false s row).2 = .updated ∧
        (processRow false s row).1.properties.map (fun p => p.id) =
          s.properties.map (fun p => p.id)) ∧
      (summaryOf (handle (some [rowValid]) false emptyStore) = some (1, 0, 0) ∧
        summaryOf (handle (some [rowValid]) false
          (storeOf (handle (some [rowValid]) false emptyStore))) = some (0, 1, 0) ∧
        (storeOf (handle (some [rowValid]) false
          (storeOf (handle (some [rowValid]) false
            emptyStore)))).properties.map (fun p => p.id) = [1]) := by
  have hb1 : rowBody false s row = rowBodyAfterLocation s (some l0.id) row := by
    unfold rowBody
    rw [if_neg (by simp), if_neg (by simp [hname, hcity, hstate])]
    unfold locationGetOrCreate
    rw [hloc]
  have hrun : processRow false s row =
      ({ s with properties := s.properties.map (fun q =>
           if q.id == p0.id then
             { q with locationId := some l0.id,
                      description := pyStrip (rowGet row.description ""),
                      property_type := pyStrip (rowGet row.property_type ""),
                      bedrooms := intField row.bedrooms 1,
                      bathrooms := b,
                      max_guests := intField row.max_guests 2,
                      price_per_night := pr,
                      address := pyStrip (rowGet row.address ""),
                      amenities := pyStrip (rowGet row.amenities ""),
                      is_available :=
                        pyLower (rowGet row.is_available "true") == "true" }
           else q) }, .updated) := by
    unfold processRow
    rw [hb1]
    unfold rowBodyAfterLocation
    simp only [if_neg htitle, hb, hpr]
    rw [hmatch]
  refine ⟨⟨?_, ?_⟩, rfl, rfl, rfl⟩
  · rw [hrun]
  · rw [hrun]
    simp only [List.map_map]
    refine List.map_congr_left ?_
    intro q _
    simp only [Function.comp_apply]
    split <;> rfl

/-- Witness for C4: importing rowValid a second time hits the Property
created by the first run and counts as updated. -/
theorem C4_reimport_updates_witness :
    (processRow false
        (storeOf (handle (some [rowValid]) false emptyStore)) rowValid).2 =
      .updated :=
  (C4_reimport_updates (storeOf (handle (some [rowValid]) false emptyStore))
      rowValid ⟨1, "Miami Beach", "Miami", "FL", "USA"⟩
      ⟨1, "Ocean Villa", some 1, "", "", 3, ⟨25, 1⟩, 6, ⟨25000, 2⟩, "", "", true⟩
      ⟨25, 1⟩ ⟨25000, 2⟩ (by decide) (by decide) (by decide) (by decide)
      rfl rfl rfl rfl).1.1

/-! ## Pagination lemmas -/

theorem numPages_mul_lt (c : Nat) (hc : 0 < c) : (numPages c 9 - 1) * 9 < c := by
  unfold numPages
  have h9 : (c + 9 - 1) / 9 * 9 ≤ c + 9 - 1 := Nat.div_mul_le_self _ 9
  have hd1 : 1 ≤ (c + 9 - 1) / 9 :=
    (Nat.one_le_div_iff (by norm_num)).mpr (by omega)
  rw [max_eq_right hd1]
  omega

theorem getPage_last_when_oob {α : Type} (items : List α) (n : Int)
    (h : n < 1 ∨ (numPages items.length 9 : Int) < n) :
    (getPage items 9 (.ofInt n)).number = numPages items.length 9 ∧
      (0 < items.length → (getPage items 9 (.ofInt n)).object_list ≠ []) := by
  have hnum : getPageNumber items.length 9 (.ofInt n) = numPages items.length 9 := by
    simp only [getPageNumber]
    rcases h with h | h
    · rw [if_pos h]
    · rw [if_neg (by omega), if_pos h]
  constructor
  · simp [getPage, hnum]
  · intro hlen
    apply List.ne_nil_of_length_pos
    have hmul := numPages_mul_lt items.length hlen
    simp only [getPage, hnum, List.length_take, List.length_drop]
    omega

theorem getPage_scenario_25 {α : Type} (items : List α) (h : items.length = 25) :
    (getPage items 9 (.ofInt 1)).object_list.length = 9 ∧
      (getPage items 9 (.ofInt 2)).object_list.length = 9 ∧
      (getPage items 9 (.ofInt 3)).object_list.length = 7 ∧
      (getPage items 9 (.ofInt 3)).hasNext = false := by
  have hnp : numPages items.length 9 = 3 := by rw [h]; rfl
  have hk : ∀ k : Int, 1 ≤ k → k ≤ 3 →
      getPageNumber items.length 9 (.ofInt k) = k.toNat := by
    intro k h1 h3
    simp only [getPageNumber]
    rw [if_neg (by omega), if_neg (by rw [hnp]; omega)]
  refine ⟨?_, ?_, ?_, ?_⟩
  · simp only [getPage, hk 1 (by norm_num) (by norm_num),
      List.length_take, List.length_drop, h]
    decide
  · simp only [getPage, hk 2 (by norm_num) (by norm_num),
      List.length_take, List.length_drop, h]
    decide
  · simp only [getPage, hk 3 (by norm_num) (by norm_num),
      List.length_take, List.length_drop, h]
    decide
  · simp only [getPage, Page.hasNext, hk 3 (by norm_num) (by norm_num), hnp]
    decide

/-- C7: on the human-facing property list (page size 9) an out-of-range
page number yields the last valid page — never an error and, whenever
anything matches, never an empty page — and with exactly 25 matching
available properties pages 1 and 2 hold 9 items, page 3 holds 7, and
has_next is false on page 3. -/
theorem C7_pagination (s : Store) (q : String) (n : Int) :
    ((n < 1 ∨ (numPages (propertyListQueryset s q).length 9 : Int) < n) →
        (property_list s q (.ofInt n)).number =
            numPages (propertyListQueryset s q).length 9 ∧
          (0 < (propertyListQueryset s q).length →
            (property_list s q (.ofInt n)).object_list ≠ [])) ∧
      ((propertyListQueryset s q).length = 25 →
        (property_list s q (.ofInt 1)).object_list.length = 9 ∧
          (property_list s q (.ofInt 2)).object_list.length = 9 ∧
          (property_list s q (.ofInt 3)).object_list.length = 7 ∧
          (property_list s q (.ofInt 3)).hasNext = false) :=
  ⟨fun h => getPage_last_when_oob (propertyListQueryset s q) n h,
   fun h => getPage_scenario_25 (propertyListQueryset s q) h⟩

/-- Witness for C7: in a store of 25 available properties, page 99 clamps
to the last page and page 3 holds the last 7 items with no next page. -/
theorem C7_pagination_witness :
    (property_list store25 "" (.ofInt 99)).number =
        numPages (propertyListQueryset store25 "").length 9 ∧
      (property_list store25 "" (.ofInt 3)).object_list.length = 7 ∧
      (property_list store25 "" (.ofInt 3)).hasNext = false :=
  ⟨((C7_pagination store25 "" 99).1 (Or.inr (by decide))).1,
   ((C7_pagination store25 "" 99).2 (by decide)).2.2.1,
   ((C7_pagination store25 "" 99).2 (by decide)).2.2.2⟩

/-- C8: autocomplete returns an empty list for an empty or all-whitespace
query; for a non-empty query it returns at most 5 Locations, all matching
the query case-insensitively on name, city or state, ordered by name
ascending; a query matching 8 stored Locations returns exactly 5, and when
at most 5 match every matching Location is returned. -/
theorem C8_autocomplete (s : Store) (q : String) :
    (pyStrip q = "" → autocomplete s q = []) ∧
      (pyStrip q ≠ "" →
        (autocomplete s q).length ≤ 5 ∧
          (∀ l ∈ autocomplete s q,
            locationMatchesQuery (pyStrip q) l = true) ∧
          List.Sorted nameOrder (autocomplete s q) ∧
          ((s.locations.filter (locationMatchesQuery (pyStrip q))).length = 8 →
            (autocomplete s q).length = 5) ∧
          (∀ l ∈ s.locations, locationMatchesQuery (pyStrip q) l = true →
            (s.locations.filter (locationMatchesQuery (pyStrip q))).length ≤ 5 →
            l ∈ autocomplete s q)) := by
  constructor
  · intro hq
    unfold autocomplete
    rw [if_pos hq]
  · intro hq
    have hopen : autocomplete s q =
        (sortByName (s.locations.filter (locationMatchesQuery (pyStrip q)))).take 5 := by
      unfold autocomplete
      rw [if_neg hq]
    have hsortlen :
        (sortByName (s.locations.filter (locationMatchesQuery (pyStrip q)))).length =
          (s.locations.filter (locationMatchesQuery (pyStrip q))).length :=
      List.length_insertionSort nameOrder _
    refine ⟨?_, ?_, ?_, ?_, ?_⟩
    · rw [hopen, List.length_take]
      exact min_le_left 5 _
    · intro l hl
      rw [hopen] at hl
      have hl2 := List.mem_of_mem_take hl
      have hl3 := (List.perm_insertionSort nameOrder _).mem_iff.mp hl2
      exact (List.mem_filter.mp hl3).2
    · rw [hopen]
      exact List.Pairwise.sublist (List.take_sublist 5 _)
        (List.sorted_insertionSort nameOrder _)
    · intro h8
      rw [hopen, List.length_take, hsortlen, h8]
      decide
    · intro l hl hmatches hle5
      rw [hopen, List.take_of_length_le (by rw [hsortlen]; exact hle5)]
      exact (List.perm_insertionSort nameOrder _).mem_iff.mpr
        (List.mem_filter.mpr ⟨hl, hmatches⟩)

/-- Witness for C8: a whitespace query over 8 matching Locations gives an
empty list, and the query "mia" matching all 8 gives exactly 5. -/
theorem C8_autocomplete_witness :
    autocomplete store8Locations "   " = [] ∧
      (autocomplete store8Locations "mia").length = 5 :=
  ⟨(C8_autocomplete store8Locations "   ").1 (by decide),
   ((C8_autocomplete store8Locations "mia").2 (by decide)).2.2.2.1 (by decide)⟩

end VacationRental
